import Mathlib

/-!
Shallow embedding of shelltape's interactive process-capture subsystem
(src/pty_capture.rs) and of the Recorder's output truncation step
(src/recorder.rs).

Strings are modelled as `List Char`; raw byte streams as `List Nat`
(each element a byte value `< 256`).  Machine-integer casts (`as i64`,
`as i32`) are modelled explicitly with `% 2 ^ w` wraparound.  The
operating-system-dependent outcomes of each fallible step (clock reads,
PTY allocation, spawn, handle acquisition, the child's exit status and
the byte stream observed by the output pump) are supplied by an
environment record `Env`, so that `execute_with_capture` becomes a pure
function of the environment.
-/

namespace Shelltape

/-- Rust's `char::is_whitespace`: the Unicode White_Space property,
used by `str::split_whitespace` in `parse_command`. -/
def isRustWhitespace (c : Char) : Bool :=
  let n := c.toNat
  (9 ≤ n && n ≤ 13) || n == 32 || n == 133 || n == 160 || n == 0x1680 ||
    (0x2000 ≤ n && n ≤ 0x200A) || n == 0x2028 || n == 0x2029 ||
    n == 0x202F || n == 0x205F || n == 0x3000

/-- Accumulator pass of `str::split_whitespace`: splits on runs of
whitespace, produces no empty tokens.  `acc` holds the current token
reversed. -/
def splitWhitespaceAux : List Char → List Char → List (List Char)
  | [], acc => if acc.isEmpty then [] else [acc.reverse]
  | c :: cs, acc =>
    if isRustWhitespace c then
      if acc.isEmpty then splitWhitespaceAux cs []
      else acc.reverse :: splitWhitespaceAux cs []
    else splitWhitespaceAux cs (c :: acc)

/-- Model of Rust's `str::split_whitespace().collect::<Vec<_>>()`. -/
def splitWhitespace (s : List Char) : List (List Char) :=
  splitWhitespaceAux s []

/-- The parts of the host environment that `parse_command` consults:
the compile-time target (`cfg(target_os = "windows")`), whether the
`PSModulePath` environment variable is set, and whether `pwsh.exe`
resolves on the search path (`which::which`). -/
structure ShellEnv where
  targetWindows : Bool
  psModulePathSet : Bool
  pwshOnPath : Bool
deriving DecidableEq

/-- Model of `parse_command` (src/pty_capture.rs lines 164-200).
On Windows with `PSModulePath` set, the whole command line is wrapped
as a single `-Command` argument to `pwsh.exe` (preferred when on the
search path) or `powershell.exe`.  Otherwise the line is split on
whitespace: first token is the program, the rest are the arguments. -/
def parseCommand (sh : ShellEnv) (command : List Char) :
    List Char × List (List Char) :=
  if sh.targetWindows && sh.psModulePathSet then
    ((if sh.pwshOnPath then "pwsh.exe".toList else "powershell.exe".toList),
      ["-NoProfile".toList, "-NonInteractive".toList, "-Command".toList,
        command])
  else
    match splitWhitespace command with
    | [] => ([], [])
    | p :: rest => (p, rest)

example : splitWhitespace "echo hello world".toList =
    ["echo".toList, "hello".toList, "world".toList] := by decide

example : parseCommand ⟨false, false, false⟩ "   ".toList = ([], []) := by
  decide

/-- One iteration of the output pump's read loop
(src/pty_capture.rs lines 68-87), as observed by the pump:
`readErr` is `Err(_)` from `reader.read`, `readEof` is `Ok(0)`,
`readData bytes writeOk flushOk lockOk` is `Ok(n)` delivering `bytes`,
with the outcomes of `stdout.write_all`, `stdout.flush` and
`output_clone.lock()` at that iteration. -/
inductive PumpEvent where
  | readErr : PumpEvent
  | readEof : PumpEvent
  | readData (bytes : List Nat) (writeOk flushOk lockOk : Bool) : PumpEvent
deriving DecidableEq

/-- Bytes accumulated in the shared capture buffer by the output pump
run over the given event trace: the pump loops until `Ok(0)` or
`Err`, appends the chunk when the lock is acquired (`if let Ok`), and
merely discards the result of the stdout write and flush (`let _ =`). -/
def pumpCaptured : List PumpEvent → List Nat
  | [] => []
  | .readErr :: _ => []
  | .readEof :: _ => []
  | .readData bs _ _ lockOk :: rest =>
      (if lockOk then bs else []) ++ pumpCaptured rest

/-- Rewrite the stdout write/flush outcomes of a pump event, leaving
the delivered bytes and the lock outcome unchanged. -/
def setWriteFlags (w f : Bool) : PumpEvent → PumpEvent
  | .readData bs _ _ l => .readData bs w f l
  | e => e

/-- UTF-8 continuation byte: `0x80 ≤ b < 0xC0`. -/
def isCont (b : Nat) : Bool := 128 ≤ b && b < 192

/-- One step of Rust's UTF-8 validation as used by
`String::from_utf8_lossy`: returns the decoded scalar value (or `none`
for an invalid or incomplete sequence) and the number of bytes
consumed, which for an error is the length of the maximal valid prefix
of an encoded character (at least 1). -/
def utf8Step : List Nat → Option Nat × Nat
  | [] => (none, 1)
  | b0 :: rest =>
    if b0 < 0x80 then (some b0, 1)
    else if b0 < 0xC2 then (none, 1)
    else if b0 < 0xE0 then
      match rest with
      | b1 :: _ =>
          if isCont b1 then (some ((b0 - 0xC0) * 64 + (b1 - 0x80)), 2)
          else (none, 1)
      | [] => (none, 1)
    else if b0 < 0xF0 then
      match rest with
      | b1 :: rest2 =>
        let ok1 :=
          if b0 == 0xE0 then 0xA0 ≤ b1 && b1 ≤ 0xBF
          else if b0 == 0xED then 0x80 ≤ b1 && b1 ≤ 0x9F
          else isCont b1
        if !ok1 then (none, 1)
        else
          match rest2 with
          | b2 :: _ =>
              if isCont b2 then
                (some (((b0 - 0xE0) * 64 + (b1 - 0x80)) * 64 + (b2 - 0x80)), 3)
              else (none, 2)
          | [] => (none, 2)
      | [] => (none, 1)
    else if b0 < 0xF5 then
      match rest with
      | b1 :: rest2 =>
        let ok1 :=
          if b0 == 0xF0 then 0x90 ≤ b1 && b1 ≤ 0xBF
          else if b0 == 0xF4 then 0x80 ≤ b1 && b1 ≤ 0x8F
          else isCont b1
        if !ok1 then (none, 1)
        else
          match rest2 with
          | b2 :: rest3 =>
            if !isCont b2 then (none, 2)
            else
              match rest3 with
              | b3 :: _ =>
                  if isCont b3 then
                    (some ((((b0 - 0xF0) * 64 + (b1 - 0x80)) * 64 +
                      (b2 - 0x80)) * 64 + (b3 - 0x80)), 4)
                  else (none, 3)
              | [] => (none, 3)
          | [] => (none, 2)
      | [] => (none, 1)
    else (none, 1)

/-- Fuel-indexed decoder loop of `String::from_utf8_lossy`: each
invalid or incomplete sequence contributes one U+FFFD replacement
character.  Each step consumes at least one byte, so fuel equal to the
length of the input always suffices. -/
def utf8LossyFuel : Nat → List Nat → List Char
  | 0, _ => []
  | _ + 1, [] => []
  | fuel + 1, b :: rest =>
    let st := utf8Step (b :: rest)
    let c : Char :=
      match st.1 with
      | some cp => Char.ofNat cp
      | none => Char.ofNat 0xFFFD
    c :: utf8LossyFuel fuel (List.drop (st.2 - 1) rest)

/-- Model of `String::from_utf8_lossy(&bytes).to_string()`
(src/pty_capture.rs line 148). -/
def utf8Lossy (bs : List Nat) : List Char :=
  utf8LossyFuel bs.length bs

example : utf8Lossy [104, 195, 169, 108, 108, 111] = "héllo".toList := by
  decide

example : utf8Lossy [104, 255, 105] =
    ['h', Char.ofNat 0xFFFD, 'i'] := by decide

/-- Rust `u128 as i64` (applied to `Duration::as_nanos()`):
wrap modulo `2 ^ 64`, then reinterpret as a signed 64-bit value. -/
def asI64 (n : Nat) : Int :=
  if n % 2 ^ 64 < 2 ^ 63 then ((n % 2 ^ 64 : Nat) : Int)
  else ((n % 2 ^ 64 : Nat) : Int) - 2 ^ 64

/-- Rust `u32 as i32` (applied to `ExitStatus::exit_code()`):
wrap modulo `2 ^ 32`, then reinterpret as a signed 32-bit value. -/
def asI32 (n : Nat) : Int :=
  if n % 2 ^ 32 < 2 ^ 31 then ((n % 2 ^ 32 : Nat) : Int)
  else ((n % 2 ^ 32 : Nat) : Int) - 2 ^ 32

/-- The coordinator's bounded wait for the output pump
(src/pty_capture.rs lines 125-131):
`while !join_handle.is_finished() && start.elapsed() < timeout
   { thread::sleep(10ms) }`
with `timeout = 100ms`.  `finished k` is whether the pump has finished
by the `k`-th check; `elapsed k` is the elapsed time in milliseconds at
the `k`-th check.  Returns the check index at which the loop exits, or
`none` if the fuel runs out first; because each iteration sleeps 10 ms,
`elapsed k ≥ 10 * k` and fuel 11 always suffices. -/
def drainLoop (finished : Nat → Bool) (elapsed : Nat → Nat) :
    Nat → Nat → Option Nat
  | 0, _ => none
  | fuel + 1, k =>
    if finished k || 100 ≤ elapsed k then some k
    else drainLoop finished elapsed fuel (k + 1)

/-- Everything the operating system and hardware decide during one
invocation of `execute_with_capture`: the two wall-clock readings
(`SystemTime::now().duration_since(UNIX_EPOCH)`, `none` on failure),
the queried terminal size, the success of PTY allocation, spawn and
handle acquisition, the event trace observed by the output pump up to
the moment the coordinator reads the capture buffer, the child's exit
status as reported by `child.wait()` (a `u32`; `none` on wait
failure), and the pump-completion and elapsed-time observations of the
drain loop. -/
structure Env where
  startClockNanos : Option Nat
  termSize : Option (Nat × Nat)
  openptyOk : Bool
  spawnOk : Bool
  cloneReaderOk : Bool
  takeWriterOk : Bool
  pumpEvents : List PumpEvent
  waitResult : Option Nat
  drainFinished : Nat → Bool
  drainElapsed : Nat → Nat
  endClockNanos : Option Nat
  shellEnv : ShellEnv

/-- Model of the `ExecutionResult` struct (src/pty_capture.rs lines
9-14). -/
structure ExecutionResult where
  output : List Char
  exitCode : Int
  startTime : Int
  endTime : Int
deriving DecidableEq

/-- The error cases of `execute_with_capture`, one per `.context(..)?`
site (src/pty_capture.rs lines 17-158), in source order. -/
inductive ExecError where
  | startClockFailed
  | openptyFailed
  | spawnFailed
  | cloneReaderFailed
  | takeWriterFailed
  | waitFailed
  | endClockFailed
deriving DecidableEq

/-- Model of `execute_with_capture` (src/pty_capture.rs lines 17-159)
as a pure function of the environment: read the start clock, query the
terminal size (defaulting to 24×80), allocate the PTY, parse the
command, spawn, clone the reader, take the writer, wait for the child,
run the bounded drain loop (its value is discarded, as in the source),
read the end clock, then assemble the result from the captured bytes
decoded permissively and the exit status cast `as i32`. -/
def executeWithCapture (env : Env) (command : List Char)
    (_cwd : List Char) : Except ExecError ExecutionResult :=
  match env.startClockNanos with
  | none => .error .startClockFailed
  | some startNanos =>
    let startTime := asI64 startNanos
    let _geom : Nat × Nat :=
      match env.termSize with
      | some wh => (wh.2, wh.1)
      | none => (24, 80)
    if env.openptyOk then
      let _parsed := parseCommand env.shellEnv command
      if env.spawnOk then
        if env.cloneReaderOk then
          if env.takeWriterOk then
            match env.waitResult with
            | none => .error .waitFailed
            | some status =>
              let _drained :=
                drainLoop env.drainFinished env.drainElapsed 11 0
              match env.endClockNanos with
              | none => .error .endClockFailed
              | some endNanos =>
                let endTime := asI64 endNanos
                let outputBytes := pumpCaptured env.pumpEvents
                let outputString := utf8Lossy outputBytes
                let exitCode := asI32 status
                .ok { output := outputString, exitCode := exitCode,
                      startTime := startTime, endTime := endTime }
          else .error .takeWriterFailed
        else .error .cloneReaderFailed
      else .error .spawnFailed
    else .error .openptyFailed

/-- An environment in which every operating-system step succeeds. -/
def envAllOk : Env where
  startClockNanos := some 1000
  termSize := some (80, 24)
  openptyOk := true
  spawnOk := true
  cloneReaderOk := true
  takeWriterOk := true
  pumpEvents := [.readData [104, 105] true true true, .readEof]
  waitResult := some 0
  drainFinished := fun _ => true
  drainElapsed := fun k => 10 * k
  endClockNanos := some 2000
  shellEnv := ⟨false, false, false⟩

example : executeWithCapture envAllOk "echo hi".toList "/tmp".toList =
    .ok { output := ['h', 'i'], exitCode := 0,
          startTime := 1000, endTime := 2000 } := rfl

/-- The Recorder's default `max_output_size`
(src/recorder.rs line 17): 100 KB. -/
def recorderDefaultMaxOutputSize : Nat := 100000

/-- Rust's `str::is_char_boundary` on the underlying bytes: index 0
and the total length are boundaries; an interior index is a boundary
exactly when the byte there is not a UTF-8 continuation byte; an index
past the end is not a boundary. -/
def isCharBoundary (bs : List Nat) (i : Nat) : Bool :=
  if i = 0 then true
  else if i = bs.length then true
  else
    match bs.get? i with
    | some b => !(128 ≤ b && b < 192)
    | none => false

/-- The UTF-8 bytes of the suffix produced by
`format!("{}...\n[Output truncated: {} bytes total]", _, total)`;
all of its characters are ASCII. -/
def truncMarkerBytes (total : Nat) : List Nat :=
  (("...\n[Output truncated: ".toList ++ (Nat.repr total).toList ++
    " bytes total]".toList).map Char.toNat)

/-- Model of `Recorder::truncate_output` (src/recorder.rs lines
86-97) on the byte representation of the string.  Rust's byte-slice
`&output[..max_output_size]` panics when the index is not a character
boundary; a panic is modelled as `none`. -/
def truncate_output (maxSize : Nat) (bs : List Nat) : Option (List Nat) :=
  if bs.length ≤ maxSize then some bs
  else if isCharBoundary bs maxSize then
    some (bs.take maxSize ++ truncMarkerBytes bs.length)
  else none

example : truncate_output 3 [97, 98] = some [97, 98] := by decide

example : truncate_output 3 [97, 97, 97, 97] =
    some ([97, 97, 97] ++ truncMarkerBytes 4) := by decide

/-- The error taxonomy of the specification, section 7: setup errors
(PTY allocation, spawn, handle acquisition) and timing-source errors
(clock reads).  The failure of `child.wait()` belongs to neither
class. -/
def isSetupOrTimingError : ExecError → Bool
  | .startClockFailed => true
  | .openptyFailed => true
  | .spawnFailed => true
  | .cloneReaderFailed => true
  | .takeWriterFailed => true
  | .waitFailed => false
  | .endClockFailed => true

/-! ## Helper lemmas -/

/-- The drain loop exits within 10 polls whenever each poll `k` is
observed at least `10 * k` milliseconds after the loop started, which
the 10 ms sleep between polls guarantees. -/
lemma drainLoop_aux (finished : Nat → Bool) (elapsed : Nat → Nat)
    (h : ∀ k, 10 * k ≤ elapsed k) :
    ∀ fuel k, 10 ≤ k + fuel →
      ∃ m, m ≤ k + fuel ∧ drainLoop finished elapsed (fuel + 1) k = some m := by
  intro fuel
  induction fuel with
  | zero =>
    intro k hk
    have h100 : 100 ≤ elapsed k := le_trans (by omega) (h k)
    refine ⟨k, by omega, ?_⟩
    simp [drainLoop, h100]
  | succ n ih =>
    intro k hk
    by_cases hc : (finished k || decide (100 ≤ elapsed k)) = true
    · refine ⟨k, by omega, ?_⟩
      simp only [drainLoop]
      rw [if_pos hc]
    · obtain ⟨m, hm, heq⟩ := ih (k + 1) (by omega)
      refine ⟨m, by omega, ?_⟩
      simp only [drainLoop]
      rw [if_neg hc]
      exact heq

/-- When every fallible step of the environment succeeds,
`execute_with_capture` returns the fully assembled result. -/
lemma exec_ok_of (env : Env) (c w : List Char) (s st e : Nat)
    (h1 : env.startClockNanos = some s) (h2 : env.openptyOk = true)
    (h3 : env.spawnOk = true) (h4 : env.cloneReaderOk = true)
    (h5 : env.takeWriterOk = true) (h6 : env.waitResult = some st)
    (h7 : env.endClockNanos = some e) :
    executeWithCapture env c w =
      .ok { output := utf8Lossy (pumpCaptured env.pumpEvents),
            exitCode := asI32 st, startTime := asI64 s,
            endTime := asI64 e } := by
  simp [executeWithCapture, h1, h2, h3, h4, h5, h6, h7]

/-- Inversion: a successful run forces every fallible step to have
succeeded and determines the result's fields from the environment. -/
lemma exec_ok_inv (env : Env) (c w : List Char) (r : ExecutionResult)
    (hok : executeWithCapture env c w = .ok r) :
    ∃ s st e, env.startClockNanos = some s ∧ env.waitResult = some st ∧
      env.endClockNanos = some e ∧ env.openptyOk = true ∧
      env.spawnOk = true ∧ env.cloneReaderOk = true ∧
      env.takeWriterOk = true ∧
      r = { output := utf8Lossy (pumpCaptured env.pumpEvents),
            exitCode := asI32 st, startTime := asI64 s,
            endTime := asI64 e } := by
  obtain ⟨sc, ts, op, sp, cr, tw, pe, wr, df, de, ec, se⟩ := env
  cases sc with
  | none => simp [executeWithCapture] at hok
  | some s =>
    cases op with
    | false => simp [executeWithCapture] at hok
    | true =>
      cases sp with
      | false => simp [executeWithCapture] at hok
      | true =>
        cases cr with
        | false => simp [executeWithCapture] at hok
        | true =>
          cases tw with
          | false => simp [executeWithCapture] at hok
          | true =>
            cases wr with
            | none => simp [executeWithCapture] at hok
            | some st =>
              cases ec with
              | none => simp [executeWithCapture] at hok
              | some e =>
                refine ⟨s, st, e, rfl, rfl, rfl, rfl, rfl, rfl, rfl, ?_⟩
                simp [executeWithCapture] at hok
                exact hok.symm

/-- A command made of whitespace only splits into no tokens. -/
lemma splitWhitespace_all_ws (cmd : List Char)
    (h : ∀ c ∈ cmd, isRustWhitespace c = true) :
    splitWhitespace cmd = [] := by
  unfold splitWhitespace
  induction cmd with
  | nil => rfl
  | cons c cs ih =>
    have hc := h c (by simp)
    simp only [splitWhitespaceAux, hc, if_true, List.isEmpty_nil]
    exact ih (fun x hx => h x (List.mem_cons_of_mem _ hx))

/-- The stdout write and flush outcomes never influence the captured
bytes. -/
lemma pumpCaptured_setWriteFlags (events : List PumpEvent) (w f : Bool) :
    pumpCaptured (events.map (setWriteFlags w f)) = pumpCaptured events := by
  induction events with
  | nil => rfl
  | cons e rest ih =>
    cases e with
    | readErr => rfl
    | readEof => rfl
    | readData bs w0 f0 l => simp [setWriteFlags, pumpCaptured, ih]

/-- Events after the first zero-length read contribute nothing. -/
lemma pumpCaptured_stops_eof (pre post : List PumpEvent) :
    pumpCaptured (pre ++ PumpEvent.readEof :: post) =
      pumpCaptured (pre ++ [PumpEvent.readEof]) := by
  induction pre with
  | nil => rfl
  | cons e rest ih =>
    cases e with
    | readErr => rfl
    | readEof => rfl
    | readData bs w0 f0 l => simp [pumpCaptured, ih]

/-- Events after the first read error contribute nothing. -/
lemma pumpCaptured_stops_err (pre post : List PumpEvent) :
    pumpCaptured (pre ++ PumpEvent.readErr :: post) =
      pumpCaptured (pre ++ [PumpEvent.readErr]) := by
  induction pre with
  | nil => rfl
  | cons e rest ih =>
    cases e with
    | readErr => rfl
    | readEof => rfl
    | readData bs w0 f0 l => simp [pumpCaptured, ih]

/-- A nonempty byte sequence always decodes to a nonempty text. -/
lemma utf8Lossy_ne_nil (bs : List Nat) (h : bs ≠ []) : utf8Lossy bs ≠ [] := by
  cases bs with
  | nil => exact absurd rfl h
  | cons b rest => simp [utf8Lossy, utf8LossyFuel]

/-- The `u128 as i64` cast is the identity below `2 ^ 63`. -/
lemma asI64_of_lt (n : Nat) (h : n < 2 ^ 63) : asI64 n = (n : Int) := by
  unfold asI64
  rw [Nat.mod_eq_of_lt (lt_trans h (by norm_num)), if_pos h]

/-- The `u32 as i32` cast is the identity below `2 ^ 31`. -/
lemma asI32_of_lt (n : Nat) (h : n < 2 ^ 31) : asI32 n = (n : Int) := by
  unfold asI32
  rw [Nat.mod_eq_of_lt (lt_trans h (by norm_num)), if_pos h]

/-! ## Claims -/

/-- C7: on the non-PowerShell path the Command Splitter splits the
command string on whitespace with no quote-aware parsing — the first
token is the program and the remaining tokens are the arguments
verbatim; in particular `"echo hello world"` yields program `"echo"`
and arguments `["hello", "world"]`. -/
theorem c7_split_on_whitespace (sh : ShellEnv)
    (h : (sh.targetWindows && sh.psModulePathSet) = false) :
    (∀ cmd p rest, splitWhitespace cmd = p :: rest →
      parseCommand sh cmd = (p, rest)) ∧
    parseCommand sh "echo hello world".toList =
      ("echo".toList, ["hello".toList, "world".toList]) := by
  constructor
  · intro cmd p rest hsplit
    simp [parseCommand, h, hsplit]
  · simp [parseCommand, h]
    decide

/-- Witness for C7 at a concrete non-PowerShell environment. -/
theorem c7_split_on_whitespace_witness :
    parseCommand ⟨false, false, false⟩ "echo hello world".toList =
      ("echo".toList, ["hello".toList, "world".toList]) :=
  (c7_split_on_whitespace ⟨false, false, false⟩ (by decide)).2

/-- C9: on the PowerShell path (target is Windows and `PSModulePath`
is set) the Command Splitter returns `pwsh.exe` when it is on the
search path and `powershell.exe` otherwise, with the fixed flag set
`-NoProfile -NonInteractive -Command` followed by the entire original
command string as one argument. -/
theorem c9_powershell_wrap (sh : ShellEnv) (cmd : List Char)
    (hw : sh.targetWindows = true) (hp : sh.psModulePathSet = true) :
    parseCommand sh cmd =
      ((if sh.pwshOnPath then "pwsh.exe".toList else "powershell.exe".toList),
        ["-NoProfile".toList, "-NonInteractive".toList, "-Command".toList,
          cmd]) := by
  simp [parseCommand, hw, hp]

/-- Witness for C9: both the `pwsh.exe`-present and the legacy case,
at a concrete command. -/
theorem c9_powershell_wrap_witness :
    parseCommand ⟨true, true, true⟩ "Get-Date".toList =
      ("pwsh.exe".toList,
        ["-NoProfile".toList, "-NonInteractive".toList, "-Command".toList,
          "Get-Date".toList]) ∧
    parseCommand ⟨true, true, false⟩ "Get-Date".toList =
      ("powershell.exe".toList,
        ["-NoProfile".toList, "-NonInteractive".toList, "-Command".toList,
          "Get-Date".toList]) := by
  constructor
  · simpa using c9_powershell_wrap ⟨true, true, true⟩ "Get-Date".toList
      rfl rfl
  · simpa using c9_powershell_wrap ⟨true, true, false⟩ "Get-Date".toList
      rfl rfl

/-- C2 counterexample: for the whitespace-only command `"   "` the
splitter does return an empty program and no arguments, but
`execute_with_capture` has no empty-command guard — it still reaches
the spawn step, whose outcome it consults: with spawning failing (as
it must for an empty program name) the run returns the spawn error,
so the subsystem did attempt to spawn for this input, contradicting
the claim. -/
theorem c2_counterexample :
    parseCommand ⟨false, false, false⟩ "   ".toList = ([], []) ∧
    executeWithCapture { envAllOk with spawnOk := false } "   ".toList
      "/tmp".toList = .error .spawnFailed :=
  ⟨by decide, rfl⟩

/-- C2 amended: for every command string that is empty or contains
only whitespace, the Command Splitter returns an empty program and an
empty argument list; however `execute_with_capture` does not treat
this as "nothing to execute" — it proceeds to the spawn step even for
such input, and a spawn failure there is surfaced to the caller. -/
theorem c2_amended_empty_split_no_guard (cmd : List Char)
    (hws : ∀ c ∈ cmd, isRustWhitespace c = true)
    (sh : ShellEnv) (hps : (sh.targetWindows && sh.psModulePathSet) = false)
    (env : Env) (w : List Char) (n : Nat)
    (h1 : env.startClockNanos = some n) (h2 : env.openptyOk = true)
    (h3 : env.spawnOk = false) :
    parseCommand sh cmd = ([], []) ∧
    executeWithCapture env cmd w = .error .spawnFailed := by
  constructor
  · simp [parseCommand, hps, splitWhitespace_all_ws cmd hws]
  · simp [executeWithCapture, h1, h2, h3]

/-- Witness for the amended C2 at the concrete command `" \t "`. -/
theorem c2_amended_empty_split_no_guard_witness :
    parseCommand ⟨false, false, false⟩ " \t ".toList = ([], []) ∧
    executeWithCapture { envAllOk with spawnOk := false } " \t ".toList
      "/tmp".toList = .error .spawnFailed :=
  c2_amended_empty_split_no_guard " \t ".toList (by decide)
    ⟨false, false, false⟩ (by decide)
    { envAllOk with spawnOk := false } "/tmp".toList 1000 rfl rfl rfl

/-- C10 counterexample: the bytes `[97, 97, 195, 169]` (the string
`"aaé"`) with `max_output_size = 3` (set through
`with_max_output_size`) are longer than the maximum, and byte index 3
falls inside the two-byte encoding of `é`, so `&output[..3]` panics:
the step does not return normally, contradicting the claim.  The
panic is modelled as `none`. -/
theorem c10_counterexample :
    truncate_output 3 [97, 97, 195, 169] = none ∧
    3 < [97, 97, 195, 169].length ∧
    isCharBoundary [97, 97, 195, 169] 3 = false := by decide

/-- C10 amended: outputs of at most `max_output_size` bytes are stored
unchanged; longer outputs are truncated to the first
`max_output_size` bytes followed by the truncation marker only when
that byte index falls on a UTF-8 character boundary — when it does
not, the byte-slice panics (modelled as `none`) instead of returning
normally.  The default configured maximum is 100,000 bytes. -/
theorem c10_amended_truncation (maxSize : Nat) (bs : List Nat) :
    (bs.length ≤ maxSize → truncate_output maxSize bs = some bs) ∧
    (maxSize < bs.length → isCharBoundary bs maxSize = true →
      truncate_output maxSize bs =
        some (bs.take maxSize ++ truncMarkerBytes bs.length)) ∧
    (maxSize < bs.length → isCharBoundary bs maxSize = false →
      truncate_output maxSize bs = none) ∧
    recorderDefaultMaxOutputSize = 100000 := by
  refine ⟨fun h => ?_, fun h hb => ?_, fun h hb => ?_, rfl⟩
  · simp [truncate_output, h]
  · have h' : ¬ bs.length ≤ maxSize := by omega
    simp [truncate_output, h', hb]
  · have h' : ¬ bs.length ≤ maxSize := by omega
    simp [truncate_output, h', hb]

/-- Witness for the amended C10: an untouched short output and a
boundary-aligned truncation. -/
theorem c10_amended_truncation_witness :
    truncate_output 5 [104, 105] = some [104, 105] ∧
    truncate_output 2 [104, 105, 106] =
      some ([104, 105] ++ truncMarkerBytes 3) :=
  ⟨(c10_amended_truncation 5 [104, 105]).1 (by decide),
    (c10_amended_truncation 2 [104, 105, 106]).2.1 (by decide) (by decide)⟩

/-- C1: once the child's exit has been observed (`waitResult` is some
status) and the clocks can be read, the coordinator's wait for the
output pump exits within 10 polls of its 100 ms / 10 ms-sleep loop no
matter whether the pump ever finishes, and the invocation returns an
`ExecutionResult` built from whatever bytes were captured so far; the
pump is never forcibly terminated — `drainFinished` may be `false` at
every poll and the result is produced all the same. -/
theorem c1_bounded_drain_then_result (env : Env) (c w : List Char)
    (n st e : Nat)
    (h1 : env.startClockNanos = some n) (h2 : env.openptyOk = true)
    (h3 : env.spawnOk = true) (h4 : env.cloneReaderOk = true)
    (h5 : env.takeWriterOk = true) (hw : env.waitResult = some st)
    (he : env.endClockNanos = some e)
    (hsleep : ∀ k, 10 * k ≤ env.drainElapsed k) :
    (∃ m, m ≤ 10 ∧
      drainLoop env.drainFinished env.drainElapsed 11 0 = some m) ∧
    ∃ r, executeWithCapture env c w = .ok r ∧
      r.output = utf8Lossy (pumpCaptured env.pumpEvents) := by
  constructor
  · obtain ⟨m, hm, heq⟩ :=
      drainLoop_aux env.drainFinished env.drainElapsed hsleep 10 0 (by omega)
    exact ⟨m, by omega, heq⟩
  · exact ⟨_, exec_ok_of env c w n st e h1 h2 h3 h4 h5 hw he, rfl⟩

/-- Witness for C1 at an environment whose output pump never reports
completion. -/
theorem c1_bounded_drain_then_result_witness :
    (∃ m, m ≤ 10 ∧
      drainLoop (fun _ => false) (fun k => 10 * k) 11 0 = some m) ∧
    ∃ r, executeWithCapture { envAllOk with drainFinished := fun _ => false }
        "cat".toList "/tmp".toList = .ok r ∧
      r.output = utf8Lossy
        (pumpCaptured ({ envAllOk with
          drainFinished := fun _ => false } : Env).pumpEvents) :=
  c1_bounded_drain_then_result
    { envAllOk with drainFinished := fun _ => false }
    "cat".toList "/tmp".toList 1000 0 2000 rfl rfl rfl rfl rfl rfl rfl
    (fun _ => Nat.le_refl _)

/-- C3 counterexample: a stdout write error is *not* treated as
end-of-pump.  If it were, an event whose write fails would be the last
one processed, and the capture buffer would hold exactly that
iteration's own append; instead, the pump keeps reading — with a
failed write at the first read of byte 65 and a subsequent read of
byte 66, the buffer ends up holding both bytes. -/
theorem c3_counterexample :
    ¬ ∀ (bs : List Nat) (f l : Bool) (rest : List PumpEvent),
        pumpCaptured (PumpEvent.readData bs false f l :: rest) =
          (if l then bs else []) := by
  intro h
  have h65 := h [65] true true [PumpEvent.readData [66] true true true]
  simp [pumpCaptured] at h65

/-- C3 amended: write and flush errors to the real terminal's stdout
are swallowed and the pump *continues* (the captured bytes are
entirely independent of the write/flush outcomes); a failed lock of
the capture buffer skips only that iteration's append and the pump
continues — the buffer goes on accumulating the later reads; the pump
terminates exactly on a zero-length read or a read error — events
beyond the first such read contribute nothing. -/
theorem c3_amended_pump_continues_past_write_errors :
    (∀ (events : List PumpEvent) (w f : Bool),
      pumpCaptured (events.map (setWriteFlags w f)) = pumpCaptured events) ∧
    (∀ (bs : List Nat) (w f : Bool) (rest : List PumpEvent),
      pumpCaptured (PumpEvent.readData bs w f false :: rest) =
        pumpCaptured rest) ∧
    (∀ pre post, pumpCaptured (pre ++ PumpEvent.readEof :: post) =
      pumpCaptured (pre ++ [PumpEvent.readEof])) ∧
    (∀ pre post, pumpCaptured (pre ++ PumpEvent.readErr :: post) =
      pumpCaptured (pre ++ [PumpEvent.readErr])) :=
  ⟨pumpCaptured_setWriteFlags,
    fun bs w f rest => by simp [pumpCaptured],
    pumpCaptured_stops_eof, pumpCaptured_stops_err⟩

/-- C4 counterexample: an invocation can also fail because
`child.wait()` fails, which is neither a setup error (PTY allocation,
spawn, handle acquisition) nor a timing-source error, so the claim's
"exactly" does not hold. -/
theorem c4_counterexample :
    executeWithCapture { envAllOk with waitResult := none }
      "sleep 1".toList "/tmp".toList = .error .waitFailed ∧
    isSetupOrTimingError .waitFailed = false :=
  ⟨rfl, rfl⟩

/-- C4 amended: `execute_with_capture` fails exactly when one of the
seven fallible steps fails — the setup steps (PTY allocation, spawn,
reader clone, writer acquisition), the two clock reads, or the wait
for the child; the pump's event trace never causes a failure, and on
success the result is built from whatever the pump captured. -/
theorem c4_amended_error_cases (env : Env) (c w : List Char) :
    ((∃ r, executeWithCapture env c w = .ok r) ↔
      (env.startClockNanos ≠ none ∧ env.openptyOk = true ∧
        env.spawnOk = true ∧ env.cloneReaderOk = true ∧
        env.takeWriterOk = true ∧ env.waitResult ≠ none ∧
        env.endClockNanos ≠ none)) ∧
    (∀ r, executeWithCapture env c w = .ok r →
      r.output = utf8Lossy (pumpCaptured env.pumpEvents)) := by
  constructor
  · constructor
    · rintro ⟨r, hok⟩
      obtain ⟨s, st, e, hs, hwr, hec, h2, h3, h4, h5, _⟩ :=
        exec_ok_inv env c w r hok
      exact ⟨by simp [hs], h2, h3, h4, h5, by simp [hwr], by simp [hec]⟩
    · rintro ⟨h1, h2, h3, h4, h5, h6, h7⟩
      obtain ⟨s, hs⟩ := Option.ne_none_iff_exists'.mp h1
      obtain ⟨st, hst⟩ := Option.ne_none_iff_exists'.mp h6
      obtain ⟨e, hec⟩ := Option.ne_none_iff_exists'.mp h7
      exact ⟨_, exec_ok_of env c w s st e hs h2 h3 h4 h5 hst hec⟩
  · intro r hok
    obtain ⟨s, st, e, _, _, _, _, _, _, _, hr⟩ := exec_ok_inv env c w r hok
    rw [hr]

/-- Witness for the amended C4 at the all-successful environment. -/
theorem c4_amended_error_cases_witness :
    ((∃ r, executeWithCapture envAllOk "ls".toList "/tmp".toList = .ok r) ↔
      (envAllOk.startClockNanos ≠ none ∧ envAllOk.openptyOk = true ∧
        envAllOk.spawnOk = true ∧ envAllOk.cloneReaderOk = true ∧
        envAllOk.takeWriterOk = true ∧ envAllOk.waitResult ≠ none ∧
        envAllOk.endClockNanos ≠ none)) ∧
    (∀ r, executeWithCapture envAllOk "ls".toList "/tmp".toList = .ok r →
      r.output = utf8Lossy (pumpCaptured envAllOk.pumpEvents)) :=
  c4_amended_error_cases envAllOk "ls".toList "/tmp".toList

/-- C5 counterexample: the timestamps come from the system wall clock
(`SystemTime::now().duration_since(UNIX_EPOCH)`), not a monotonic
source, so nothing prevents the second reading from being smaller
than the first; with readings 10 ns then 5 ns the invocation succeeds
and returns `end_time < start_time`. -/
theorem c5_counterexample :
    ∃ r, executeWithCapture
        { envAllOk with startClockNanos := some 10, endClockNanos := some 5 }
        "true".toList "/tmp".toList = .ok r ∧
      r.endTime < r.startTime :=
  ⟨_, rfl, by decide⟩

/-- C5 amended: whenever the wall clock does not step backwards
between the two readings (and the later reading fits in a signed
64-bit nanosecond count), every successful invocation satisfies
`end_time ≥ start_time`. -/
theorem c5_amended_end_ge_start (env : Env) (c w : List Char)
    (s e : Nat) (r : ExecutionResult)
    (hs : env.startClockNanos = some s) (he : env.endClockNanos = some e)
    (hle : s ≤ e) (hlt : e < 2 ^ 63)
    (hok : executeWithCapture env c w = .ok r) :
    r.startTime ≤ r.endTime := by
  obtain ⟨s', st, e', hs', _, he', _, _, _, _, hr⟩ := exec_ok_inv env c w r hok
  rw [hs] at hs'
  rw [he] at he'
  obtain rfl : s = s' := by injection hs'
  obtain rfl : e = e' := by injection he'
  rw [hr]
  show asI64 s ≤ asI64 e
  rw [asI64_of_lt s (lt_of_le_of_lt hle hlt), asI64_of_lt e hlt]
  exact_mod_cast hle

/-- Witness for the amended C5 at clock readings 100 ns and 200 ns. -/
theorem c5_amended_end_ge_start_witness :
    ({ output := ['h', 'i'], exitCode := 0, startTime := 100,
       endTime := 200 } : ExecutionResult).startTime ≤
      ({ output := ['h', 'i'], exitCode := 0, startTime := 100,
         endTime := 200 } : ExecutionResult).endTime :=
  c5_amended_end_ge_start
    { envAllOk with startClockNanos := some 100, endClockNanos := some 200 }
    "true".toList "/tmp".toList 100 200 _ rfl rfl (by norm_num)
    (by norm_num) rfl

/-- C6 counterexample: `exit_status.exit_code()` is a `u32` and the
source casts it `as i32`, so a status at or above `2 ^ 31` — e.g. the
Windows status 0xC0000005 = 3221225477 — is reported as its wrapped
negative reinterpretation, not "that same value". -/
theorem c6_counterexample :
    ∃ r, executeWithCapture { envAllOk with waitResult := some 3221225477 }
        "crash".toList "/tmp".toList = .ok r ∧
      r.exitCode ≠ (3221225477 : Int) ∧ r.exitCode = -1073741819 :=
  ⟨_, rfl, by decide, by decide⟩

/-- C6 amended: the reported `exit_code` is the signed 32-bit
reinterpretation of the child's status, which matches the status
exactly whenever it is below `2 ^ 31` (in particular for every Unix
exit status); and the exit code is extracted only after the child is
confirmed exited — when the wait does not confirm an exit, no
`ExecutionResult` is produced at all. -/
theorem c6_amended_exit_code (env : Env) (c w : List Char) (st : Nat)
    (r : ExecutionResult) (hw : env.waitResult = some st)
    (hlt : st < 2 ^ 31) (hok : executeWithCapture env c w = .ok r) :
    r.exitCode = (st : Int) ∧
    ∀ env2 r2, env2.waitResult = none →
      executeWithCapture env2 c w ≠ .ok r2 := by
  constructor
  · obtain ⟨s, st', e, _, hw', _, _, _, _, _, hr⟩ := exec_ok_inv env c w r hok
    rw [hw] at hw'
    obtain rfl : st = st' := by injection hw'
    rw [hr]
    exact asI32_of_lt st hlt
  · intro env2 r2 hnone hok2
    obtain ⟨s, st', e, _, hw', _⟩ := exec_ok_inv env2 c w r2 hok2
    rw [hnone] at hw'
    exact Option.noConfusion hw'

/-- Witness for the amended C6 at a child exiting with status 1. -/
theorem c6_amended_exit_code_witness :
    ({ output := ['h', 'i'], exitCode := 1, startTime := 1000,
       endTime := 2000 } : ExecutionResult).exitCode = ((1 : Nat) : Int) ∧
    ∀ env2 r2, env2.waitResult = none →
      executeWithCapture env2 "false".toList "/tmp".toList ≠ .ok r2 :=
  c6_amended_exit_code { envAllOk with waitResult := some 1 }
    "false".toList "/tmp".toList 1 _ rfl (by norm_num) rfl

/-- C8: the `output` of every successful invocation is exactly the
permissive lossy UTF-8 decoding of the bytes accumulated in the
capture buffer; the decoding is total — every nonempty byte sequence
decodes to nonempty text — and an invalid byte becomes the U+FFFD
replacement character. -/
theorem c8_output_lossy_decoded (env : Env) (c w : List Char)
    (r : ExecutionResult) (hok : executeWithCapture env c w = .ok r) :
    r.output = utf8Lossy (pumpCaptured env.pumpEvents) ∧
    (∀ bs : List Nat, bs ≠ [] → utf8Lossy bs ≠ []) ∧
    utf8Lossy [255] = [Char.ofNat 0xFFFD] := by
  refine ⟨?_, utf8Lossy_ne_nil, by decide⟩
  obtain ⟨s, st, e, _, _, _, _, _, _, _, hr⟩ := exec_ok_inv env c w r hok
  rw [hr]

/-- Witness for C8 at the all-successful environment. -/
theorem c8_output_lossy_decoded_witness :
    ({ output := ['h', 'i'], exitCode := 0, startTime := 1000,
       endTime := 2000 } : ExecutionResult).output =
      utf8Lossy (pumpCaptured envAllOk.pumpEvents) ∧
    (∀ bs : List Nat, bs ≠ [] → utf8Lossy bs ≠ []) ∧
    utf8Lossy [255] = [Char.ofNat 0xFFFD] :=
  c8_output_lossy_decoded envAllOk "echo hi".toList "/tmp".toList _ rfl

end Shelltape
